import Mathlib

/-!
Verification of the Computer_Vision_CNC manufacturing platform core.

Shallow embedding of `src/cv_cnc_manufacturing`: the data model
(`core/base.py`), the CNC integration layer (`cnc/__init__.py`), the
computer-vision quality layer (`computer_vision/__init__.py`) and the
event filter of the API layer (`api/__init__.py`).  Python floats are
modelled as rationals, Python dictionaries as association lists, and
side-effecting fallible calls as explicit outcome values.
-/

namespace CVCNC

/-! ## core/base.py -/

/-- Embeds `ComponentState` from `core/base.py`. -/
inductive ComponentState where
  | UNINITIALIZED
  | INITIALIZING
  | READY
  | RUNNING
  | PAUSED
  | ERROR
  | EMERGENCY_STOP
  | MAINTENANCE
  | SHUTDOWN
deriving DecidableEq, Repr

/-- Embeds `Priority` from `core/base.py`: lower numeric value means higher urgency. -/
inductive Priority where
  | EMERGENCY
  | CRITICAL
  | HIGH
  | NORMAL
  | LOW
  | BACKGROUND
deriving DecidableEq, Repr

/-- The numeric value of each `Priority` member, as assigned in `core/base.py`. -/
def Priority.value : Priority → Nat
  | .EMERGENCY => 0
  | .CRITICAL => 1
  | .HIGH => 2
  | .NORMAL => 3
  | .LOW => 4
  | .BACKGROUND => 5

/-- Embeds `OperationResult` from `core/base.py` (the timing and metadata fields,
which only record wall-clock instants, are not modelled). -/
structure OperationResult (α : Type) where
  success : Bool
  result : Option α
  error : Option String
  error_code : Option String
deriving DecidableEq, Repr

/-- Embeds `OperationResult.success_result` from `core/base.py`. -/
def OperationResult.success_result {α : Type} (r : α) : OperationResult α :=
  { success := true, result := some r, error := none, error_code := none }

/-- Embeds `OperationResult.error_result` from `core/base.py`. -/
def OperationResult.error_result {α : Type} (err : String) (code : Option String) :
    OperationResult α :=
  { success := false, result := none, error := some err, error_code := code }

/-- Embeds `ManufacturingEvent` from `core/base.py` (the uuid, timestamp and free-form
data payload are not used by any filtering decision and are not modelled). -/
structure ManufacturingEvent where
  event_type : String
  source_component : String
  priority : Priority
deriving DecidableEq, Repr

/-! ## api/__init__.py : event subscription filter -/

/-- Embeds `EventSubscription` from `api/__init__.py`.  `priority_filter` is a string
in the source, looked up in the `Priority` enum after upcasing; a falsy (absent
or empty) string and an absent filter are both modelled as `none`. -/
structure EventSubscription where
  event_types : List String
  priority_filter : Option Priority
  component_filter : Option String
deriving DecidableEq, Repr

/-- Embeds `ManufacturingAPI._should_send_event` from `api/__init__.py`: the three
sequential guards (event-type set, minimum priority, source component).
An empty `component_filter` string is falsy in Python, hence no filtering. -/
def should_send_event (event : ManufacturingEvent) (subscription : EventSubscription) :
    Bool :=
  if !subscription.event_types.isEmpty &&
      !subscription.event_types.contains event.event_type then
    false
  else if (match subscription.priority_filter with
           | some min_priority => decide (min_priority.value < event.priority.value)
           | none => false) then
    false
  else if (match subscription.component_filter with
           | some c => !(c == "") && !(event.source_component == c)
           | none => false) then
    false
  else
    true

/-! ## computer_vision/__init__.py : data model -/

/-- Embeds `InspectionResult` from `computer_vision/__init__.py`. -/
inductive InspectionResult where
  | PASS
  | FAIL
  | UNCERTAIN
  | NEEDS_REVIEW
deriving DecidableEq, Repr

/-- Embeds `DefectType` from `computer_vision/__init__.py`. -/
inductive DefectType where
  | SURFACE_DEFECT
  | DIMENSIONAL_ERROR
  | SCRATCH
  | CRACK
  | DISCOLORATION
  | FOREIGN_MATERIAL
  | INCOMPLETE_FEATURE
  | BURR
  | CORROSION
  | DEFORMATION
  | UNKNOWN
deriving DecidableEq, Repr

/-- Embeds `BoundingBox` from `computer_vision/__init__.py`. -/
structure BoundingBox where
  x : ℚ
  y : ℚ
  width : ℚ
  height : ℚ
  confidence : ℚ
deriving DecidableEq, Repr

/-- Embeds `DefectDetection` from `computer_vision/__init__.py` (the detection
timestamp is not modelled). -/
structure DefectDetection where
  defect_type : DefectType
  confidence : ℚ
  bounding_box : BoundingBox
  severity : ℚ
  description : Option String
deriving DecidableEq, Repr

/-- Embeds `QualityMeasurement` from `computer_vision/__init__.py` (the measurement
timestamp is not modelled). -/
structure QualityMeasurement where
  measurement_type : String
  value : ℚ
  unit : String
  tolerance_min : Option ℚ
  tolerance_max : Option ℚ
  within_tolerance : Bool
  confidence : ℚ
deriving DecidableEq, Repr

/-- Construction of a `QualityMeasurement`: the dataclass constructor followed
by `__post_init__`, which overwrites `within_tolerance` exactly when both
tolerance bounds are present. -/
def QualityMeasurement.make (measurement_type : String) (value : ℚ) (unit : String)
    (tolerance_min tolerance_max : Option ℚ) (within_tolerance : Bool)
    (confidence : ℚ) : QualityMeasurement :=
  let base : QualityMeasurement :=
    { measurement_type := measurement_type, value := value, unit := unit,
      tolerance_min := tolerance_min, tolerance_max := tolerance_max,
      within_tolerance := within_tolerance, confidence := confidence }
  match tolerance_min, tolerance_max with
  | some lo, some hi =>
      { base with within_tolerance := decide (lo ≤ value ∧ value ≤ hi) }
  | _, _ => base

/-- Embeds `InspectionReport` from `computer_vision/__init__.py` (timing, notes and
timestamp are not modelled). -/
structure InspectionReport where
  part_id : String
  inspection_result : InspectionResult
  overall_score : ℚ
  defects : List DefectDetection
  measurements : List QualityMeasurement
deriving DecidableEq, Repr

/-! ## computer_vision/__init__.py : QualityInspector scoring and verdict -/

/-- Embeds `QualityInspector._calculate_quality_score`: start at 1.0, subtract
`severity * confidence * 0.2` per defect and `0.1 * confidence` per
out-of-tolerance measurement, then clamp to [0, 1]. -/
def calculate_quality_score (defects : List DefectDetection)
    (measurements : List QualityMeasurement) : ℚ :=
  let after_defects : ℚ :=
    defects.foldl (fun score d => score - d.severity * d.confidence * (2/10)) 1
  let after_measurements : ℚ :=
    measurements.foldl
      (fun score m => if !m.within_tolerance then score - (1/10) * m.confidence else score)
      after_defects
  max 0 (min 1 after_measurements)

/-- Embeds `QualityInspector._determine_inspection_result`: critical-defect override,
then tolerance override, then the score thresholds 0.95 / 0.8 / 0.6. -/
def determine_inspection_result (overall_score : ℚ) (defects : List DefectDetection)
    (measurements : List QualityMeasurement) : InspectionResult :=
  let critical_defects := defects.filter (fun d => decide (d.severity > 7/10))
  if !critical_defects.isEmpty then
    InspectionResult.FAIL
  else
    let out_of_tolerance := measurements.filter (fun m => !m.within_tolerance)
    if !out_of_tolerance.isEmpty then
      InspectionResult.FAIL
    else if overall_score ≥ 95/100 then
      InspectionResult.PASS
    else if overall_score ≥ 8/10 then
      InspectionResult.NEEDS_REVIEW
    else if overall_score ≥ 6/10 then
      InspectionResult.UNCERTAIN
    else
      InspectionResult.FAIL

/-- The verdict rule exactly as the specification words it (severed from the
source): any defect of severity above 0.7 fails, else any out-of-tolerance
measurement fails, else the three score thresholds decide. -/
def inspection_result_spec (overall_score : ℚ) (defects : List DefectDetection)
    (measurements : List QualityMeasurement) : InspectionResult :=
  if defects.any (fun d => decide (d.severity > 7/10)) then
    InspectionResult.FAIL
  else if measurements.any (fun m => !m.within_tolerance) then
    InspectionResult.FAIL
  else if overall_score ≥ 95/100 then
    InspectionResult.PASS
  else if overall_score ≥ 8/10 then
    InspectionResult.NEEDS_REVIEW
  else if overall_score ≥ 6/10 then
    InspectionResult.UNCERTAIN
  else
    InspectionResult.FAIL

/-- The score formula exactly as the specification words it: 1.0 minus the sum
of the defect penalties minus the sum of the out-of-tolerance penalties,
clamped to [0, 1]. -/
def quality_score_spec (defects : List DefectDetection)
    (measurements : List QualityMeasurement) : ℚ :=
  max 0 (min 1
    (1 - (defects.map (fun d => d.severity * d.confidence * (2/10))).sum
       - ((measurements.filter (fun m => !m.within_tolerance)).map
            (fun m => (1/10) * m.confidence)).sum))

/-- Embeds `DefectDetector.detect_defects` readiness guard: a detector whose component
state is not READY answers a `COMPONENT_NOT_READY` error before any image
analysis.  The image-analysis body (OpenCV contour extraction) is not
embeddable and is passed as its outcome `body`. -/
def detect_defects (state : ComponentState)
    (body : OperationResult (List DefectDetection)) :
    OperationResult (List DefectDetection) :=
  if state ≠ ComponentState.READY then
    OperationResult.error_result ("Defect detector not ready") (some ("COMPONENT_NOT_READY"))
  else
    body

/-- Embeds `QualityInspector.inspect_part`: readiness guard, preprocessing stage,
defect-detection stage, measurements, score and verdict.  Image operations are
passed as their outcomes (`preprocess`, `detect`, `measurements`); the score
and verdict computations are the embedded functions above. -/
def inspect_part (state : ComponentState) (part_id : String)
    (preprocess : Except String Unit)
    (detect : Except String (List DefectDetection))
    (measurements : List QualityMeasurement) : OperationResult InspectionReport :=
  if state ≠ ComponentState.READY then
    OperationResult.error_result ("Quality inspector not ready") (some ("COMPONENT_NOT_READY"))
  else
    match preprocess with
    | .error e =>
        OperationResult.error_result ("Preprocessing failed: " ++ e)
          (some ("PREPROCESSING_FAILED"))
    | .ok _ =>
        match detect with
        | .error e =>
            OperationResult.error_result ("Defect detection failed: " ++ e)
              (some ("DEFECT_DETECTION_FAILED"))
        | .ok defects =>
            let overall_score := calculate_quality_score defects measurements
            let verdict := determine_inspection_result overall_score defects measurements
            OperationResult.success_result
              { part_id := part_id, inspection_result := verdict,
                overall_score := overall_score, defects := defects,
                measurements := measurements }

/-! ## cnc/__init__.py : data model -/

/-- Embeds `MachineState` from `cnc/__init__.py`. -/
inductive MachineState where
  | UNAVAILABLE
  | READY
  | ACTIVE
  | INTERRUPTED
  | STOPPED
  | EMERGENCY_STOP
  | MAINTENANCE
  | FAULT
deriving DecidableEq, Repr

/-- Embeds `AxisPosition` from `cnc/__init__.py` (timestamp not modelled). -/
structure AxisPosition where
  axis_name : String
  position : ℚ
deriving DecidableEq, Repr

/-- Embeds `SpindleStatus` from `cnc/__init__.py`. -/
structure SpindleStatus where
  speed_rpm : ℚ
  load_percent : ℚ
  temperature : Option ℚ
  is_running : Bool
  direction : String
deriving DecidableEq, Repr

/-- Embeds `MachineStatus` from `cnc/__init__.py` (the tool-info field and the capture
timestamp are not modelled; the axis-position dictionary is an association
list). -/
structure MachineStatus where
  machine_id : String
  state : MachineState
  program_name : Option String
  line_number : Option Int
  feedrate : Option ℚ
  axis_positions : List (String × AxisPosition)
  spindle_status : Option SpindleStatus
  coolant_on : Bool
  door_open : Bool
  emergency_stop_active : Bool
  alarms : List String
  warnings : List String
deriving DecidableEq, Repr

/-- Embeds `MachineStatus.is_operational`: state is READY or ACTIVE. -/
def MachineStatus.is_operational (s : MachineStatus) : Bool :=
  s.state == MachineState.READY || s.state == MachineState.ACTIVE

/-- Embeds `MachineStatus.has_errors`: any alarm, or the emergency-stop flag. -/
def MachineStatus.has_errors (s : MachineStatus) : Bool :=
  decide (0 < s.alarms.length) || s.emergency_stop_active

/-- A `MachineStatus` as the dataclass defaults build it: only the machine id
and the state given, every defaulted field at its default. -/
def blank_status (machine_id : String) (state : MachineState) : MachineStatus :=
  { machine_id := machine_id, state := state, program_name := none,
    line_number := none, feedrate := none, axis_positions := [],
    spindle_status := none, coolant_on := false, door_open := false,
    emergency_stop_active := false, alarms := [], warnings := [] }

/-! ## cnc/__init__.py : MTConnect parsing -/

/-- A data item of an MTConnect `current` document: a Sample (with the
element's optional `name` attribute) or an Event.  `tag` is the element's
local tag name, `value` its optional text. -/
inductive MTItem where
  | sample (tag : String) (value : Option String) (name : Option String)
  | event (tag : String) (value : Option String)
deriving DecidableEq, Repr

/-- An MTConnect response payload: malformed XML, or a well-formed document
flattened to its data items in processing order. -/
inductive MTDocument where
  | malformed
  | wellFormed (items : List MTItem)
deriving DecidableEq, Repr

/-- Models Python `str.upper` as used on MTConnect event values (ASCII
upcasing, character by character). -/
def py_upper (s : String) : String :=
  String.mk (s.data.map Char.toUpper)

/-- Python truthiness of an optional element text (`None` and `""` are falsy). -/
def text_truthy : Option String → Bool
  | some s => !(s == "")
  | none => false

/-- Python dictionary assignment `d[k] = v` on an association list. -/
def dict_insert {α : Type} (d : List (String × α)) (k : String) (v : α) :
    List (String × α) :=
  if d.any (fun p => p.1 == k) then
    d.map (fun p => if p.1 == k then (k, v) else p)
  else
    d ++ [(k, v)]

/-- The `state_mapping` dictionary of
`MTConnectController._process_mtconnect_event`, with its `.get` default of
`UNAVAILABLE` for unrecognized values. -/
def execution_state_mapping (v : String) : MachineState :=
  if v == "ACTIVE" then MachineState.ACTIVE
  else if v == "READY" then MachineState.READY
  else if v == "STOPPED" then MachineState.STOPPED
  else if v == "INTERRUPTED" then MachineState.INTERRUPTED
  else MachineState.UNAVAILABLE

/-- Embeds `MTConnectController._process_mtconnect_event`: Execution events map the
state through `execution_state_mapping` on the upcased value, EmergencyStop
events set `emergency_stop_active` to whether the upcased value is ARMED,
Program events set the program name; items with falsy text are skipped. -/
def process_mtconnect_event (tag : String) (value : Option String)
    (status : MachineStatus) : MachineStatus :=
  if !text_truthy value then status
  else
    let v := value.getD ""
    if tag == "Execution" then
      { status with state := execution_state_mapping (py_upper v) }
    else if tag == "EmergencyStop" then
      { status with emergency_stop_active := py_upper v == "ARMED" }
    else if tag == "Program" then
      { status with program_name := some v }
    else
      status

/-- Embeds `MTConnectController._process_mtconnect_sample`.  `parse_float` stands for
Python `float(...)`; a `none` result is the `ValueError` it raises, which
escapes to the caller as `Except.error`. -/
def process_mtconnect_sample (parse_float : String → Option ℚ) (tag : String)
    (value : Option String) (name : Option String) (status : MachineStatus) :
    Except Unit MachineStatus :=
  if !text_truthy value then Except.ok status
  else
    let v := value.getD ""
    if tag == "SpindleSpeed" then
      match parse_float v with
      | none => Except.error ()
      | some x =>
          let spindle := status.spindle_status.getD
            { speed_rpm := 0, load_percent := 0, temperature := none,
              is_running := false, direction := "stopped" }
          Except.ok { status with spindle_status := some { spindle with speed_rpm := x } }
    else if tag == "Feedrate" then
      match parse_float v with
      | none => Except.error ()
      | some x => Except.ok { status with feedrate := some x }
    else if tag.startsWith ("Position") then
      match parse_float v with
      | none => Except.error ()
      | some x =>
          let axis_name := name.getD tag
          let pos : AxisPosition := { axis_name := axis_name, position := x }
          let updated := dict_insert status.axis_positions axis_name pos
          Except.ok { status with axis_positions := updated }
    else
      Except.ok status

/-- The item loop of `MTConnectController._parse_mtconnect_status`: samples may
raise (numeric conversion), events never do. -/
def process_items (parse_float : String → Option ℚ) :
    List MTItem → MachineStatus → Except Unit MachineStatus
  | [], status => Except.ok status
  | MTItem.sample tag value name :: rest, status =>
      match process_mtconnect_sample parse_float tag value name status with
      | Except.error e => Except.error e
      | Except.ok status2 => process_items parse_float rest status2
  | MTItem.event tag value :: rest, status =>
      process_items parse_float rest (process_mtconnect_event tag value status)

/-- Embeds `MTConnectController._parse_mtconnect_status`: starts from a default READY
status; any exception while parsing (malformed document, failed numeric
conversion) is caught and yields a status with state UNAVAILABLE. -/
def parse_mtconnect_status (parse_float : String → Option ℚ) (machine_id : String)
    (doc : MTDocument) : MachineStatus :=
  match doc with
  | MTDocument.malformed => blank_status machine_id MachineState.UNAVAILABLE
  | MTDocument.wellFormed items =>
      match process_items parse_float items (blank_status machine_id MachineState.READY) with
      | Except.ok status => status
      | Except.error _ => blank_status machine_id MachineState.UNAVAILABLE

/-- Whether `_parse_mtconnect_status` takes its exception path on `doc`. -/
def mtconnect_parse_fails (parse_float : String → Option ℚ) (machine_id : String)
    (doc : MTDocument) : Bool :=
  match doc with
  | MTDocument.malformed => true
  | MTDocument.wellFormed items =>
      match process_items parse_float items (blank_status machine_id MachineState.READY) with
      | Except.ok _ => false
      | Except.error _ => true

/-- The transport outcome of the HTTP request inside
`MTConnectController.get_status`. -/
inductive MTTransport where
  | httpError (code : Nat)
  | exn (msg : String)
  | ok (doc : MTDocument)
deriving DecidableEq, Repr

/-- Embeds `MTConnectController.get_status`: a non-200 response or a raised transport
exception become error results; a delivered body is parsed (the parse never
raises) and wrapped in a success result. -/
def mtconnect_get_status (parse_float : String → Option ℚ) (machine_id : String)
    (transport : MTTransport) : OperationResult MachineStatus :=
  match transport with
  | MTTransport.httpError code =>
      OperationResult.error_result
        ("MTConnect current request failed: HTTP " ++ toString code)
        (some ("REQUEST_FAILED"))
  | MTTransport.exn msg =>
      OperationResult.error_result ("Error getting MTConnect status: " ++ msg)
        (some ("STATUS_ERROR"))
  | MTTransport.ok doc =>
      OperationResult.success_result (parse_mtconnect_status parse_float machine_id doc)

/-! ## cnc/__init__.py : disconnect -/

/-- Embeds `MTConnectController.disconnect`: unconditionally a success result. -/
def mtconnect_disconnect : OperationResult Bool :=
  OperationResult.success_result true

/-- Behaviour of the underlying `opcua` client's `disconnect()` call. -/
inductive OPCUAClientBehavior where
  | disconnects_ok
  | disconnect_raises (msg : String)
deriving DecidableEq, Repr

/-- Embeds `OPCUAController.disconnect`: with no client session it succeeds; with a
client it calls the client's `disconnect()`, returning success, or an error
result with code DISCONNECTION_ERROR when that call raises. -/
def opcua_disconnect (client : Option OPCUAClientBehavior) : OperationResult Bool :=
  match client with
  | some OPCUAClientBehavior.disconnects_ok => OperationResult.success_result true
  | some (OPCUAClientBehavior.disconnect_raises msg) =>
      OperationResult.error_result ("OPC-UA disconnection error: " ++ msg)
        (some ("DISCONNECTION_ERROR"))
  | none => OperationResult.success_result true

/-! ## cnc/__init__.py : CNCManager -/

/-- Outcome of one controller's `emergency_stop()` call as observed by
`CNCManager.emergency_stop_all`: a returned `OperationResult` (its `success`
flag), or a raised exception. -/
inductive EStopOutcome where
  | returns (success : Bool)
  | raises
deriving DecidableEq, Repr

/-- The per-machine entry `emergency_stop_all` records for one outcome. -/
def estop_entry : EStopOutcome → Bool
  | EStopOutcome.returns b => b
  | EStopOutcome.raises => false

/-- The loop of `CNCManager.emergency_stop_all`: each controller is tried
inside its own try/except, a raise records `False` for that machine and the
loop continues. -/
def emergency_stop_all_loop :
    List (String × EStopOutcome) → List (String × Bool) → List (String × Bool)
  | [], results => results
  | (machine_id, outcome) :: rest, results =>
      emergency_stop_all_loop rest (results ++ [(machine_id, estop_entry outcome)])

/-- Embeds `CNCManager.emergency_stop_all` over the registered controllers (listed
with the outcome each controller's `emergency_stop()` would have): always a
success result carrying the per-machine map. -/
def emergency_stop_all (controllers : List (String × EStopOutcome)) :
    OperationResult (List (String × Bool)) :=
  OperationResult.success_result (emergency_stop_all_loop controllers [])

/-- Embeds `CNCManager._on_status_update` for one registered machine's history list:
append, then evict the oldest entry if the size bound is exceeded. -/
def on_status_update (max_history_size : Nat) (history : List MachineStatus)
    (status : MachineStatus) : List MachineStatus :=
  let appended := history ++ [status]
  if max_history_size < appended.length then appended.tail else appended

/-- Delivering a sequence of status updates for one machine to an initially
empty history buffer. -/
def run_status_updates (max_history_size : Nat) (updates : List MachineStatus) :
    List MachineStatus :=
  updates.foldl (on_status_update max_history_size) []

/-! ## Shared list lemmas -/

/-- Emptiness of a filtered list is the negation of `any`. -/
lemma filter_isEmpty_eq_not_any {α : Type} (p : α → Bool) (l : List α) :
    (l.filter p).isEmpty = !l.any p := by
  induction l with
  | nil => rfl
  | cons a t ih =>
      cases h : p a
      · simpa [List.filter_cons, h] using ih
      · simp [List.filter_cons, h]

/-- Folding subtraction over a list subtracts the sum of the mapped values. -/
lemma foldl_sub_eq {α : Type} (f : α → ℚ) (l : List α) (a : ℚ) :
    l.foldl (fun s x => s - f x) a = a - (l.map f).sum := by
  induction l generalizing a with
  | nil => simp
  | cons x t ih =>
      simp only [List.foldl_cons, List.map_cons, List.sum_cons, ih]
      ring

/-- Folding a guarded subtraction subtracts the sum over the filtered list. -/
lemma foldl_cond_sub_eq {α : Type} (p : α → Bool) (f : α → ℚ) (l : List α) (a : ℚ) :
    l.foldl (fun s x => if p x then s - f x else s) a
      = a - ((l.filter p).map f).sum := by
  induction l generalizing a with
  | nil => simp
  | cons x t ih =>
      cases h : p x
      · simp [List.foldl_cons, h, ih, List.filter_cons]
      · simp only [List.foldl_cons, h, ih, List.filter_cons, if_pos, cond_true,
          List.map_cons, List.sum_cons]
        ring

/-! ## Claim theorems -/

/-- C2: the inspection verdict equals the specification's rule — any defect
with severity above 0.7 fails, else any out-of-tolerance measurement fails,
else the thresholds 0.95 / 0.8 / 0.6 decide — and each override forces FAIL
regardless of the score. -/
theorem determine_inspection_result_matches_spec (overall_score : ℚ)
    (defects : List DefectDetection) (measurements : List QualityMeasurement) :
    determine_inspection_result overall_score defects measurements
      = inspection_result_spec overall_score defects measurements
    ∧ ((∃ d ∈ defects, d.severity > 7/10) →
        determine_inspection_result overall_score defects measurements
          = InspectionResult.FAIL)
    ∧ ((∃ m ∈ measurements, m.within_tolerance = false) →
        determine_inspection_result overall_score defects measurements
          = InspectionResult.FAIL) := by
  refine ⟨?_, ?_, ?_⟩
  · unfold determine_inspection_result inspection_result_spec
    simp only [filter_isEmpty_eq_not_any]
    cases h1 : defects.any (fun d => decide (d.severity > 7/10)) <;>
      cases h2 : measurements.any (fun m => !m.within_tolerance) <;>
        simp [h1, h2]
  · rintro ⟨d, hd, hsev⟩
    have hany : defects.any (fun d => decide (d.severity > 7/10)) = true :=
      List.any_eq_true.mpr ⟨d, hd, decide_eq_true hsev⟩
    unfold determine_inspection_result
    simp only [filter_isEmpty_eq_not_any]
    simp [hany]
  · rintro ⟨m, hm, htol⟩
    have hany : measurements.any (fun m => !m.within_tolerance) = true :=
      List.any_eq_true.mpr ⟨m, hm, by simp [htol]⟩
    unfold determine_inspection_result
    simp only [filter_isEmpty_eq_not_any]
    cases h1 : defects.any (fun d => decide (d.severity > 7/10)) <;> simp [hany]

/-- A concrete critical defect (severity 0.9, confidence 0.9). -/
def critical_defect_example : DefectDetection :=
  { defect_type := DefectType.SCRATCH, confidence := 9/10,
    bounding_box := { x := 0, y := 0, width := 1, height := 1, confidence := 9/10 },
    severity := 9/10, description := none }

/-- C2 witness: with a perfect score of 1, a single severity-0.9 defect still
forces FAIL. -/
theorem determine_inspection_result_matches_spec_witness :
    (∃ d ∈ [critical_defect_example], d.severity > 7/10)
    ∧ determine_inspection_result 1 [critical_defect_example] []
        = InspectionResult.FAIL := by
  have hex : ∃ d ∈ [critical_defect_example], d.severity > 7/10 :=
    ⟨critical_defect_example, List.mem_singleton.mpr rfl, by norm_num [critical_defect_example]⟩
  exact ⟨hex, (determine_inspection_result_matches_spec 1 [critical_defect_example] []).2.1 hex⟩

/-- C3: the computed score equals 1 minus the summed defect penalties minus the
summed out-of-tolerance penalties, clamped to [0, 1]; it always lies in [0, 1];
and appending a defect (with the documented nonnegative severity and
confidence) never increases it. -/
theorem calculate_quality_score_spec_bounds (defects : List DefectDetection)
    (measurements : List QualityMeasurement) :
    calculate_quality_score defects measurements
      = quality_score_spec defects measurements
    ∧ 0 ≤ calculate_quality_score defects measurements
    ∧ calculate_quality_score defects measurements ≤ 1
    ∧ (∀ d : DefectDetection, 0 ≤ d.severity → 0 ≤ d.confidence →
        calculate_quality_score (defects ++ [d]) measurements
          ≤ calculate_quality_score defects measurements) := by
  have key : ∀ ds : List DefectDetection,
      calculate_quality_score ds measurements = quality_score_spec ds measurements := by
    intro ds
    unfold calculate_quality_score quality_score_spec
    simp only [foldl_sub_eq, foldl_cond_sub_eq]
  refine ⟨key defects, le_max_left 0 _, ?_, ?_⟩
  · exact max_le (by norm_num) (min_le_left 1 _)
  · intro d hs hc
    rw [key (defects ++ [d]), key defects]
    unfold quality_score_spec
    have hpen : 0 ≤ d.severity * d.confidence * (2/10) :=
      mul_nonneg (mul_nonneg hs hc) (by norm_num)
    refine max_le_max le_rfl (min_le_min le_rfl ?_)
    simp only [List.map_append, List.sum_append, List.map_cons, List.map_nil,
      List.sum_cons, List.sum_nil]
    linarith

/-- C3 witness: appending a severity-0.5, confidence-0.5 defect to an empty
inspection does not increase the score. -/
theorem calculate_quality_score_spec_bounds_witness :
    calculate_quality_score
      ([] ++ [{ critical_defect_example with severity := 1/2, confidence := 1/2 }]) []
      ≤ calculate_quality_score [] [] := by
  exact (calculate_quality_score_spec_bounds [] []).2.2.2
    { critical_defect_example with severity := 1/2, confidence := 1/2 }
    (by norm_num) (by norm_num)

/-- C4 counterexample: a measurement built with only `tolerance_max = 5` and
value 10 keeps the default `within_tolerance = true`, although the value
violates the one bound that was given. -/
theorem within_tolerance_single_bound_counterexample :
    (QualityMeasurement.make ("d") 10 ("mm") none (some 5) true 1).within_tolerance
      = true
    ∧ ¬ ((10 : ℚ) ≤ 5) := by
  constructor
  · rfl
  · norm_num

/-- C4 amended: `within_tolerance` is recomputed at construction only when
both tolerance bounds are given, to `tolerance_min ≤ value ≤ tolerance_max`;
when no bound or exactly one bound is given it keeps the value passed to the
constructor (default `True`), even if the present bound is violated. -/
theorem within_tolerance_at_construction (measurement_type : String) (value : ℚ)
    (unit : String) (tolerance_min tolerance_max : Option ℚ)
    (within_tolerance : Bool) (confidence : ℚ) :
    (∀ lo hi, tolerance_min = some lo → tolerance_max = some hi →
      (QualityMeasurement.make measurement_type value unit tolerance_min
          tolerance_max within_tolerance confidence).within_tolerance
        = decide (lo ≤ value ∧ value ≤ hi))
    ∧ (tolerance_min = none ∨ tolerance_max = none →
      (QualityMeasurement.make measurement_type value unit tolerance_min
          tolerance_max within_tolerance confidence).within_tolerance
        = within_tolerance) := by
  constructor
  · intro lo hi hmin hmax
    subst hmin
    subst hmax
    rfl
  · intro h
    rcases tolerance_min with _ | lo <;> rcases tolerance_max with _ | hi <;>
      first
        | rfl
        | (rcases h with h | h <;> simp_all)

/-- C4 witness: with both bounds 0 and 200 and value 250 the constructed flag
is the tolerance check (false); with only an upper bound the passed default
survives. -/
theorem within_tolerance_at_construction_witness :
    (QualityMeasurement.make ("brightness") 250 ("u") (some 0) (some 200) true 1).within_tolerance
      = decide ((0 : ℚ) ≤ 250 ∧ (250 : ℚ) ≤ 200)
    ∧ (QualityMeasurement.make ("d") 10 ("mm") none (some 5) true 1).within_tolerance
      = true := by
  constructor
  · exact (within_tolerance_at_construction ("brightness") 250 ("u") (some 0)
      (some 200) true 1).1 0 200 rfl rfl
  · exact (within_tolerance_at_construction ("d") 10 ("mm") none (some 5)
      true 1).2 (Or.inl rfl)

/-- The loop of `emergency_stop_all` is the per-controller map of outcomes,
appended after any previously accumulated results. -/
lemma emergency_stop_all_loop_eq (cs : List (String × EStopOutcome))
    (acc : List (String × Bool)) :
    emergency_stop_all_loop cs acc
      = acc ++ cs.map (fun p => (p.1, estop_entry p.2)) := by
  induction cs generalizing acc with
  | nil => simp [emergency_stop_all_loop]
  | cons c rest ih =>
      obtain ⟨machine_id, outcome⟩ := c
      simp [emergency_stop_all_loop, ih]

/-- C7: `emergency_stop_all` always succeeds, returns exactly one entry per
registered controller in registration order, and each machine's entry is
determined by that machine's own outcome alone — a raise records `false` for
that machine and leaves every other entry untouched. -/
theorem emergency_stop_all_isolated (controllers : List (String × EStopOutcome)) :
    (emergency_stop_all controllers).success = true
    ∧ (emergency_stop_all controllers).result
        = some (controllers.map (fun p => (p.1, estop_entry p.2)))
    ∧ (∀ machine_id outcome, (machine_id, outcome) ∈ controllers →
        (machine_id, estop_entry outcome)
          ∈ controllers.map (fun p => (p.1, estop_entry p.2))) := by
  refine ⟨rfl, ?_, ?_⟩
  · unfold emergency_stop_all
    rw [emergency_stop_all_loop_eq]
    rfl
  · intro machine_id outcome hmem
    exact List.mem_map_of_mem (fun p => (p.1, estop_entry p.2)) hmem

/-- C7 witness: controller A raises, controller B succeeds; B's entry is still
present and true while A's entry is false. -/
theorem emergency_stop_all_isolated_witness :
    (emergency_stop_all
        [(("A"), EStopOutcome.raises), (("B"), EStopOutcome.returns true)]).result
      = some [(("A"), false), (("B"), true)]
    ∧ (("B"), true) ∈
        ([(("A"), EStopOutcome.raises), (("B"), EStopOutcome.returns true)].map
          (fun p => (p.1, estop_entry p.2))) := by
  constructor
  · exact (emergency_stop_all_isolated
      [(("A"), EStopOutcome.raises), (("B"), EStopOutcome.returns true)]).2.1.trans
      (by decide)
  · exact (emergency_stop_all_isolated
      [(("A"), EStopOutcome.raises), (("B"), EStopOutcome.returns true)]).2.2
      ("B") (EStopOutcome.returns true) (by decide)

/-- C10: whenever the component state is not READY, `inspect_part` and
`detect_defects` answer the `COMPONENT_NOT_READY` error result, independently
of every pipeline outcome — so no pipeline stage can influence the answer. -/
theorem readiness_guard (state : ComponentState) (h : state ≠ ComponentState.READY) :
    (∀ (part_id : String) (preprocess : Except String Unit)
        (detect : Except String (List DefectDetection))
        (measurements : List QualityMeasurement),
      inspect_part state part_id preprocess detect measurements
        = OperationResult.error_result ("Quality inspector not ready")
            (some ("COMPONENT_NOT_READY")))
    ∧ (∀ body : OperationResult (List DefectDetection),
      detect_defects state body
        = OperationResult.error_result ("Defect detector not ready")
            (some ("COMPONENT_NOT_READY"))) := by
  constructor
  · intro part_id preprocess detect measurements
    simp [inspect_part, h]
  · intro body
    simp [detect_defects, h]

/-- C10 witness: an UNINITIALIZED inspector and detector answer
COMPONENT_NOT_READY even when every pipeline stage would have succeeded. -/
theorem readiness_guard_witness :
    inspect_part ComponentState.UNINITIALIZED ("part-1") (Except.ok ()) (Except.ok []) []
      = OperationResult.error_result ("Quality inspector not ready")
          (some ("COMPONENT_NOT_READY"))
    ∧ detect_defects ComponentState.UNINITIALIZED (OperationResult.success_result [])
      = OperationResult.error_result ("Defect detector not ready")
          (some ("COMPONENT_NOT_READY")) := by
  constructor
  · exact (readiness_guard ComponentState.UNINITIALIZED (by decide)).1
      ("part-1") (Except.ok ()) (Except.ok []) []
  · exact (readiness_guard ComponentState.UNINITIALIZED (by decide)).2
      (OperationResult.success_result [])

/-- Closed form of delivering updates to a history buffer already holding
`hist` (at most the capacity): the buffer is the suffix of `hist ++ updates`
that fits the capacity. -/
lemma foldl_on_status_update (max_history_size : Nat) (updates : List MachineStatus) :
    ∀ hist : List MachineStatus, hist.length ≤ max_history_size →
      updates.foldl (on_status_update max_history_size) hist
        = (hist ++ updates).drop (hist.length + updates.length - max_history_size) := by
  induction updates with
  | nil =>
      intro hist hle
      simp [Nat.sub_eq_zero_of_le hle]
  | cons u rest ih =>
      intro hist hle
      simp only [List.foldl_cons]
      by_cases hc : max_history_size < (hist ++ [u]).length
      · have hstep : on_status_update max_history_size hist u = (hist ++ [u]).tail := by
          simp only [on_status_update]
          rw [if_pos hc]
        have htl : ((hist ++ [u]).tail).length ≤ max_history_size := by
          simp only [List.length_tail, List.length_append, List.length_cons,
            List.length_nil]
          omega
        rw [hstep, ih _ htl]
        rw [← List.drop_one]
        rw [← List.drop_append_of_le_length (show 1 ≤ (hist ++ [u]).length by simp)]
        rw [List.drop_drop]
        rw [List.append_assoc, List.singleton_append]
        congr 1
        simp only [List.length_append, List.length_cons, List.length_nil] at hc
        simp only [List.length_drop, List.length_tail, List.length_append,
          List.length_cons, List.length_nil]
        omega
      · have hstep : on_status_update max_history_size hist u = hist ++ [u] := by
          simp only [on_status_update]
          rw [if_neg hc]
        have hle2 : (hist ++ [u]).length ≤ max_history_size := by
          simp only [List.length_append, List.length_cons, List.length_nil] at hc ⊢
          omega
        rw [hstep, ih _ hle2]
        rw [List.append_assoc, List.singleton_append]
        congr 1
        simp only [List.length_append, List.length_cons, List.length_nil]
        omega

/-- C6: after any sequence of updates the history buffer is exactly the suffix
of the update sequence that fits the capacity — the most recent entries in
arrival order, oldest evicted first — so it never exceeds
`max_history_size`, and holds exactly `max_history_size` entries once at
least that many updates arrived. -/
theorem status_history_bounded (max_history_size : Nat) (updates : List MachineStatus) :
    run_status_updates max_history_size updates
      = updates.drop (updates.length - max_history_size)
    ∧ (run_status_updates max_history_size updates).length ≤ max_history_size
    ∧ (max_history_size ≤ updates.length →
        (run_status_updates max_history_size updates).length = max_history_size) := by
  have key : run_status_updates max_history_size updates
      = updates.drop (updates.length - max_history_size) := by
    unfold run_status_updates
    rw [foldl_on_status_update max_history_size updates [] (by simp)]
    simp
  refine ⟨key, ?_, ?_⟩
  · rw [key, List.length_drop]
    omega
  · intro hge
    rw [key, List.length_drop]
    omega

/-- Four distinct status snapshots for one machine. -/
def four_updates : List MachineStatus :=
  [blank_status ("m7") MachineState.READY,
   blank_status ("m7") MachineState.ACTIVE,
   blank_status ("m7") MachineState.STOPPED,
   blank_status ("m7") MachineState.FAULT]

/-- C6 witness: capacity 3 and four updates leave exactly the last three, in
order. -/
theorem status_history_bounded_witness :
    run_status_updates 3 four_updates
      = [blank_status ("m7") MachineState.ACTIVE,
         blank_status ("m7") MachineState.STOPPED,
         blank_status ("m7") MachineState.FAULT]
    ∧ (run_status_updates 3 four_updates).length = 3 := by
  constructor
  · exact (status_history_bounded 3 four_updates).1.trans (by decide)
  · exact (status_history_bounded 3 four_updates).2.2 (by decide)

/-- C9 counterexample: an OPC-UA controller whose underlying client raises on
`disconnect()` gets a failing result with code DISCONNECTION_ERROR, not a
success. -/
theorem opcua_disconnect_counterexample :
    (opcua_disconnect (some (OPCUAClientBehavior.disconnect_raises ("boom")))).success
      = false
    ∧ (opcua_disconnect (some (OPCUAClientBehavior.disconnect_raises ("boom")))).error_code
      = some ("DISCONNECTION_ERROR") := by
  constructor
  · rfl
  · rfl

/-- C9 amended: `disconnect()` never raises — it always returns an
`OperationResult` — and the MTConnect variant always succeeds; the OPC-UA
variant succeeds exactly when there is no client session or the underlying
client disconnect does not raise (in particular a disconnect with no session,
as on a never-connected or repeatedly disconnected-without-session controller,
succeeds), and returns a failing DISCONNECTION_ERROR result when the
underlying client disconnect raises. -/
theorem disconnect_best_effort :
    mtconnect_disconnect = OperationResult.success_result true
    ∧ (∀ client : Option OPCUAClientBehavior,
        ((opcua_disconnect client).success = false ↔
          ∃ msg, client = some (OPCUAClientBehavior.disconnect_raises msg)))
    ∧ (opcua_disconnect none).success = true := by
  refine ⟨rfl, ?_, rfl⟩
  intro client
  constructor
  · intro hfail
    rcases client with _ | behavior
    · exact absurd hfail (by simp [opcua_disconnect, OperationResult.success_result])
    · rcases behavior with _ | msg
      · exact absurd hfail (by simp [opcua_disconnect, OperationResult.success_result])
      · exact ⟨msg, rfl⟩
  · rintro ⟨msg, rfl⟩
    rfl

/-- C8: an event passes the subscription filter exactly when its type is
allowed (an empty allowed set means no type filtering), its priority value is
at most a set minimum-priority value (lower value = higher urgency), and its
source matches a set non-empty component filter; with `priority_filter = HIGH`
a NORMAL event is always dropped and a CRITICAL event is delivered when the
other filters are inactive. -/
theorem should_send_event_characterized (e : ManufacturingEvent)
    (sub : EventSubscription) :
    (should_send_event e sub = true ↔
      (sub.event_types = [] ∨ e.event_type ∈ sub.event_types)
      ∧ (∀ p, sub.priority_filter = some p → e.priority.value ≤ p.value)
      ∧ (∀ c, sub.component_filter = some c → c ≠ "" → e.source_component = c))
    ∧ (sub.priority_filter = some Priority.HIGH →
        (e.priority = Priority.NORMAL → should_send_event e sub = false)
        ∧ (e.priority = Priority.CRITICAL → sub.event_types = [] →
            sub.component_filter = none → should_send_event e sub = true)) := by
  obtain ⟨et, sc, ep⟩ := e
  obtain ⟨ets, pf, cf⟩ := sub
  constructor
  · rcases pf with _ | p <;> rcases cf with _ | c <;>
      (unfold should_send_event
       split_ifs <;> (simp_all [List.isEmpty_iff, Nat.not_lt]; try tauto))
  · rintro rfl
    constructor
    · rintro rfl
      cases hemp : (!ets.isEmpty && !ets.contains et) <;>
        simp [should_send_event, hemp, Priority.value]
    · rintro rfl rfl rfl
      simp [should_send_event, Priority.value]

/-- C8 witness: under a HIGH minimum-priority filter with no other filtering,
a NORMAL event is dropped and a CRITICAL event is delivered. -/
theorem should_send_event_characterized_witness :
    should_send_event
        { event_type := ("status"), source_component := ("cnc"),
          priority := Priority.NORMAL }
        { event_types := [], priority_filter := some Priority.HIGH,
          component_filter := none }
      = false
    ∧ should_send_event
        { event_type := ("status"), source_component := ("cnc"),
          priority := Priority.CRITICAL }
        { event_types := [], priority_filter := some Priority.HIGH,
          component_filter := none }
      = true := by
  constructor
  · exact ((should_send_event_characterized
      { event_type := ("status"), source_component := ("cnc"),
        priority := Priority.NORMAL }
      { event_types := [], priority_filter := some Priority.HIGH,
        component_filter := none }).2 rfl).1 rfl
  · exact ((should_send_event_characterized
      { event_type := ("status"), source_component := ("cnc"),
        priority := Priority.CRITICAL }
      { event_types := [], priority_filter := some Priority.HIGH,
        component_filter := none }).2 rfl).2 rfl rfl rfl

/-- C1 counterexample: a payload whose only item is an EmergencyStop event
with value ARMED parses to a status with `emergency_stop_active = true` and
the default state READY, hence `is_operational = true`. -/
theorem estop_armed_operational_counterexample :
    (parse_mtconnect_status (fun _ => none) ("m1")
        (MTDocument.wellFormed
          [MTItem.event ("EmergencyStop") (some ("ARMED"))])).emergency_stop_active
      = true
    ∧ (parse_mtconnect_status (fun _ => none) ("m1")
        (MTDocument.wellFormed
          [MTItem.event ("EmergencyStop") (some ("ARMED"))])).is_operational
      = true
    ∧ (parse_mtconnect_status (fun _ => none) ("m1")
        (MTDocument.wellFormed
          [MTItem.event ("EmergencyStop") (some ("ARMED"))])).state
      = MachineState.READY := by
  refine ⟨by decide, by decide, by decide⟩

/-- C1 amended: `is_operational` is determined by `state` alone (true iff
READY or ACTIVE); an EmergencyStop event only sets the
`emergency_stop_active` flag and never changes `state` or `is_operational`,
so the flag being true does not restrict operability — it does imply
`has_errors`. -/
theorem estop_flag_independent_of_operational (st : MachineStatus) :
    (st.is_operational
        = (st.state == MachineState.READY || st.state == MachineState.ACTIVE))
    ∧ (st.emergency_stop_active = true → st.has_errors = true)
    ∧ (∀ value : Option String,
        (process_mtconnect_event ("EmergencyStop") value st).state = st.state
        ∧ (process_mtconnect_event ("EmergencyStop") value st).is_operational
            = st.is_operational) := by
  refine ⟨rfl, ?_, ?_⟩
  · intro h
    simp [MachineStatus.has_errors, h]
  · intro value
    cases htr : text_truthy value <;>
      simp [process_mtconnect_event, MachineStatus.is_operational, htr]

/-- C1 witness: a READY status with the emergency-stop flag set has errors,
and an ARMED EmergencyStop event leaves the state of a READY status
unchanged. -/
theorem estop_flag_independent_witness :
    ({ blank_status ("m2") MachineState.READY with
        emergency_stop_active := true } : MachineStatus).has_errors = true
    ∧ (process_mtconnect_event ("EmergencyStop") (some ("ARMED"))
        (blank_status ("m2") MachineState.READY)).state
      = (blank_status ("m2") MachineState.READY).state := by
  constructor
  · exact (estop_flag_independent_of_operational
      { blank_status ("m2") MachineState.READY with
        emergency_stop_active := true }).2.1 rfl
  · exact ((estop_flag_independent_of_operational
      (blank_status ("m2") MachineState.READY)).2.2 (some ("ARMED"))).1

/-- C5: a delivered MTConnect payload always yields a successful result; when
parsing fails (malformed document, or a sample value that fails numeric
conversion) the carried status is the degraded UNAVAILABLE status rather than
an error or an exception; and an Execution event whose upcased value is
outside the mapping table maps the state to UNAVAILABLE. -/
theorem mtconnect_parse_failure_degrades (parse_float : String → Option ℚ)
    (machine_id : String) (doc : MTDocument) :
    (mtconnect_get_status parse_float machine_id (MTTransport.ok doc)).success = true
    ∧ (mtconnect_parse_fails parse_float machine_id doc = true →
        mtconnect_get_status parse_float machine_id (MTTransport.ok doc)
          = OperationResult.success_result
              (blank_status machine_id MachineState.UNAVAILABLE))
    ∧ (∀ (v : String) (st : MachineStatus), (v == "") = false →
        py_upper v ∉ [("ACTIVE" : String), ("READY" : String), ("STOPPED" : String),
          ("INTERRUPTED" : String)] →
        (process_mtconnect_event ("Execution") (some v) st).state
          = MachineState.UNAVAILABLE) := by
  refine ⟨rfl, ?_, ?_⟩
  · intro hfail
    unfold mtconnect_get_status parse_mtconnect_status
    unfold mtconnect_parse_fails at hfail
    cases doc with
    | malformed => rfl
    | wellFormed items =>
        cases hp : process_items parse_float items
            (blank_status machine_id MachineState.READY) with
        | ok st => simp [hp] at hfail
        | error e => simp [hp]
  · intro v st hv hmem
    simp only [List.mem_cons, List.not_mem_nil, or_false, not_or] at hmem
    obtain ⟨h1, h2, h3, h4⟩ := hmem
    simp [process_mtconnect_event, text_truthy, hv, execution_state_mapping,
      h1, h2, h3, h4]

/-- C5 witness: a sample whose value fails numeric conversion yields a
successful result carrying the UNAVAILABLE status, and an unknown Execution
value maps the state to UNAVAILABLE. -/
theorem mtconnect_parse_failure_degrades_witness :
    mtconnect_get_status (fun _ => none) ("m1")
        (MTTransport.ok (MTDocument.wellFormed
          [MTItem.sample ("Feedrate") (some ("abc")) none]))
      = OperationResult.success_result (blank_status ("m1") MachineState.UNAVAILABLE)
    ∧ (process_mtconnect_event ("Execution") (some ("FOO"))
        (blank_status ("m1") MachineState.READY)).state
      = MachineState.UNAVAILABLE := by
  constructor
  · exact (mtconnect_parse_failure_degrades (fun _ => none) ("m1")
      (MTDocument.wellFormed
        [MTItem.sample ("Feedrate") (some ("abc")) none])).2.1 rfl
  · exact (mtconnect_parse_failure_degrades (fun _ => none) ("m1")
      MTDocument.malformed).2.2 ("FOO")
      (blank_status ("m1") MachineState.READY) rfl (by decide)

end CVCNC
